import Mathlib

/-!
Verification development for the download-session orchestrator of the
olympus-terminal/tools repository.  The definitions below are shallow
embeddings of `yt_stealth_downloader.py` (class `StealthChannelDownloader`)
and `yt_channel_advanced.py` (class `AdvancedChannelDownloader`).

Conventions of the embedding:
* Python dicts keyed by video id become association lists with in-place
  replacement (`updateFail` mirrors dict assignment, `eraseFail` mirrors
  `del`); `lookupFail` mirrors `dict.get`.
* Randomness (`random.uniform`, `random.random`, `random.choice`,
  `random.shuffle`) is passed in as explicit draw parameters, and network /
  filesystem effects (fetch outcomes, the `.stop` sentinel file, a
  `KeyboardInterrupt` raised during the countdown sleep) are represented by
  explicit outcome parameters, so every function is a pure function of its
  inputs, exactly following the control flow of the source.
* Python floats are modelled as rationals; the built-in `round` is modelled
  as round-half-up (`pyRound`).  The tie-breaking rule (Python rounds halves
  to even) is immaterial to every property proved in this file.
* The JSON progress file is modelled by the `Progress` / `AdvProgress`
  structures; `_save_progress` writes the whole structure, so persistence is
  represented by the structure value itself.  Timestamps, titles and the
  textual error log are not tracked because no claim mentions them.
-/

/-- Is the first character list a prefix of the second?  Used to model
Python's `str.startswith` and as the inner step of substring search. -/
def charsStart : List Char → List Char → Bool
  | [], _ => true
  | _ :: _, [] => false
  | a :: as, b :: bs => a == b && charsStart as bs

/-- Does the second character list occur contiguously inside the first?
Models Python's `needle in haystack` on strings. -/
def charsContain : List Char → List Char → Bool
  | [], needle => needle.isEmpty
  | c :: rest, needle => charsStart needle (c :: rest) || charsContain rest needle

/-- Python `needle in haystack` for strings. -/
def strContainsSub (haystack needle : String) : Bool :=
  charsContain haystack.data needle.data

/-- Python `str.lower()` (ASCII case folding suffices for the fixed
vocabulary of error markers used by the source). -/
def lowerStr (s : String) : String :=
  String.mk (s.data.map Char.toLower)

/-- Embeds the permanent-failure classification of
`StealthChannelDownloader._download_single_video` (lines 396-400):
`error_msg = str(e).lower()` and `is_permanent = 'unavailable' in error_msg
or 'private' in error_msg or 'deleted' in error_msg or 'removed' in
error_msg`. -/
def isPermanentError (msg : String) : Bool :=
  let m := lowerStr msg
  strContainsSub m "unavailable" || strContainsSub m "private" ||
    strContainsSub m "deleted" || strContainsSub m "removed"

/-- One entry of the `failed_videos` map: `attempts` and
`permanent_failure` (the `title` and `errors` fields of the source carry no
information any claim depends on and are omitted). -/
structure FailInfo where
  attempts : Nat
  permanentFailure : Bool
  deriving DecidableEq, Repr

/-- One entry of the `sessions` history list (the `id`, `date` and
`channel` string fields are omitted; the counters are what the claims are
about). -/
structure SessionRec where
  downloaded : Nat
  failed : Nat
  deriving DecidableEq, Repr

/-- The persisted progress state of `yt_stealth_downloader.py`:
`downloaded_videos` (only its key set matters), `failed_videos`,
`daily_downloads[today]` (mirrored in memory as `self.downloads_today`),
and `sessions`. -/
structure Progress where
  downloadedVideos : List String
  failedVideos : List (String × FailInfo)
  downloadsToday : Nat
  sessions : List SessionRec
  deriving DecidableEq, Repr

/-- Association-list lookup; models `dict.get(video_id)`. -/
def lookupFail : List (String × FailInfo) → String → Option FailInfo
  | [], _ => none
  | (k, v) :: rest, vid => if k = vid then some v else lookupFail rest vid

/-- Association-list update; models `dict[video_id] = record`. -/
def updateFail : List (String × FailInfo) → String → FailInfo → List (String × FailInfo)
  | [], k, v => [(k, v)]
  | (k2, v2) :: rest, k, v =>
      if k2 = k then (k, v) :: rest else (k2, v2) :: updateFail rest k v

/-- Association-list removal of the first binding of a key; models
`del dict[video_id]`. -/
def eraseFail : List (String × FailInfo) → String → List (String × FailInfo)
  | [], _ => []
  | (k2, v2) :: rest, k => if k2 = k then rest else (k2, v2) :: eraseFail rest k

/-- `self.progress_data.get('failed_videos', {}).get(video_id, {}).get('attempts', 0)`. -/
def stealthAttempts (p : Progress) (vid : String) : Nat :=
  ((lookupFail p.failedVideos vid).map FailInfo.attempts).getD 0

/-- Result of one fetch attempt by the external fetch collaborator
(`yt_dlp.YoutubeDL.download`): success, or an exception carrying a
message. -/
inductive FetchOutcome
  | success
  | failure (msg : String)
  deriving DecidableEq, Repr

/-- Return value of one call of `_download_single_video`: the updated
progress state, the boolean the method returns, and whether the external
fetch operation (`ydl.download`) was actually invoked. -/
structure StepOut where
  progress : Progress
  success : Bool
  fetchInvoked : Bool
  deriving DecidableEq, Repr

/-- Embeds `StealthChannelDownloader._download_single_video`
(lines 326-415).  Control flow of the source, in order: (1) if the id is in
`downloaded_videos` return `True` without fetching; (2) if the recorded
`attempts` are `>= 3` return `False` without fetching; (3) otherwise invoke
the fetch.  On success the id is added to `downloaded_videos` and
`_update_daily_downloads` increments the daily counter.  On failure the
`failed_videos` record is created if absent (attempts `0`), its
`permanent_failure` flag is set to the current classification, and its
`attempts` are incremented by one — the net record is
`⟨old attempts + 1, isPermanentError msg⟩`. -/
def downloadSingleVideo (p : Progress) (vid : String) (outcome : FetchOutcome) : StepOut :=
  if vid ∈ p.downloadedVideos then
    ⟨p, true, false⟩
  else if 3 ≤ stealthAttempts p vid then
    ⟨p, false, false⟩
  else
    match outcome with
    | .success =>
        ⟨{ p with downloadedVideos := p.downloadedVideos ++ [vid],
                  downloadsToday := p.downloadsToday + 1 }, true, true⟩
    | .failure msg =>
        let newRecord : FailInfo := ⟨stealthAttempts p vid + 1, isPermanentError msg⟩
        ⟨{ p with failedVideos := updateFail p.failedVideos vid newRecord }, false, true⟩

/-- The eligibility check actually performed by the source before invoking
fetch: not already downloaded, and fewer than `3` recorded attempts (the
`permanent_failure` flag is not consulted). -/
def isEligible (p : Progress) (vid : String) : Bool :=
  decide (vid ∉ p.downloadedVideos) && decide (stealthAttempts p vid < 3)

/-- Modelled from the spec: `isEligible(itemId, maxRetries)` of §4.1 — "true
iff no record exists, or record.status = Pending/FailedTransient with
attempts < maxRetries.  False if Downloaded or FailedPermanent or attempts ≥
maxRetries" — instantiated at the stealth downloader's hard-coded
`maxRetries = 3`, with a `failed_videos` record whose `permanent_failure`
flag is set playing the role of status `FailedPermanent`. -/
def specIsEligible (p : Progress) (vid : String) : Bool :=
  if vid ∈ p.downloadedVideos then false
  else
    match lookupFail p.failedVideos vid with
    | none => true
    | some fi => !fi.permanentFailure && decide (fi.attempts < 3)

theorem lookupFail_updateFail_self (l : List (String × FailInfo)) (k : String) (v : FailInfo) :
    lookupFail (updateFail l k v) k = some v := by
  induction l with
  | nil => simp [updateFail, lookupFail]
  | cons hd tl ih =>
      obtain ⟨k2, v2⟩ := hd
      by_cases h : k2 = k
      · simp [updateFail, lookupFail, h]
      · simp [updateFail, lookupFail, h, ih]

theorem lookupFail_updateFail_ne (l : List (String × FailInfo)) (k w : String) (v : FailInfo)
    (hne : w ≠ k) : lookupFail (updateFail l k v) w = lookupFail l w := by
  induction l with
  | nil => simp [updateFail, lookupFail, Ne.symm hne]
  | cons hd tl ih =>
      obtain ⟨k2, v2⟩ := hd
      by_cases h : k2 = k
      · subst h
        simp [updateFail, lookupFail, Ne.symm hne]
      · simp only [updateFail, if_neg h, lookupFail]
        by_cases h2 : k2 = w <;> simp [h2, ih]

theorem lookupFail_updateFail_isSome (l : List (String × FailInfo)) (k w : String)
    (v : FailInfo) (h : (lookupFail l w).isSome) :
    (lookupFail (updateFail l k v) w).isSome := by
  by_cases hw : w = k
  · subst hw; simp [lookupFail_updateFail_self]
  · rwa [lookupFail_updateFail_ne l k w v hw]

/-- Per-iteration environment of the download loop of
`StealthChannelDownloader.download_channel`: whether the `.stop` sentinel
file exists at the top of the iteration, the outcome the fetch collaborator
would produce for this item, and whether the operator presses Ctrl-C during
the `_wait_with_countdown` sleep that follows the item. -/
structure IterEnv where
  stopFile : Bool
  outcome : FetchOutcome
  interruptDuringWait : Bool
  deriving DecidableEq, Repr

/-- Result of the download loop: final progress state, the `downloaded` and
`failed` counters, the ids for which fetch was invoked (in order), and
whether a `KeyboardInterrupt` escaped from the `Waiting` sleep. -/
structure LoopOut where
  progress : Progress
  downloaded : Nat
  failed : Nat
  fetched : List String
  interrupted : Bool
  deriving DecidableEq, Repr

/-- Embeds the `for i, video in enumerate(videos)` loop of
`StealthChannelDownloader.download_channel` (lines 523-567), in source
order: (1) `_check_daily_limit` — break when `downloads_today >=
daily_limit`; (2) break when the `.stop` file exists; (3)
`_download_single_video`; (4) update the `downloaded` / `failed` counters;
(5) if this is not the last item, `_wait_with_countdown` — a Ctrl-C there
re-raises `KeyboardInterrupt`, which aborts the loop (and, in the source,
propagates out of `download_channel`). -/
def channelLoop (dailyLimit : Nat) (p : Progress) (downloaded failed : Nat)
    (fetchedAcc : List String) : List (String × IterEnv) → LoopOut
  | [] => ⟨p, downloaded, failed, fetchedAcc, false⟩
  | (vid, env) :: rest =>
      if dailyLimit ≤ p.downloadsToday then ⟨p, downloaded, failed, fetchedAcc, false⟩
      else if env.stopFile then ⟨p, downloaded, failed, fetchedAcc, false⟩
      else
        let out := downloadSingleVideo p vid env.outcome
        let fetchedAcc2 := if out.fetchInvoked then fetchedAcc ++ [vid] else fetchedAcc
        let downloaded2 := if out.success then downloaded + 1 else downloaded
        let failed2 := if out.success then failed else failed + 1
        if rest.isEmpty then ⟨out.progress, downloaded2, failed2, fetchedAcc2, false⟩
        else if env.interruptDuringWait then ⟨out.progress, downloaded2, failed2, fetchedAcc2, true⟩
        else channelLoop dailyLimit out.progress downloaded2 failed2 fetchedAcc2 rest

/-- `videos = videos[:limit] if limit else videos` (line 492-493; a `limit`
of `0` is falsy in Python and leaves the list untouched). -/
def applyLimit (limit : Option Nat) (videos : List (String × IterEnv)) :
    List (String × IterEnv) :=
  match limit with
  | some l => if l ≠ 0 then videos.take l else videos
  | none => videos

/-- Lines 496-499: `remaining_today = daily_limit - downloads_today`; if the
list is longer it is truncated to `videos[:remaining_today]`. -/
def applyDailyCap (remaining : Nat) (videos : List (String × IterEnv)) :
    List (String × IterEnv) :=
  if remaining < videos.length then videos.take remaining else videos

/-- How `download_channel` relinquished control: an early `return False`
before the download loop (time restriction in paranoid mode, daily limit
already reached, or empty video list), a normal return of `failed == 0`
after appending the session record, or a `KeyboardInterrupt` that
propagated out of the `Waiting` sleep. -/
inductive ChannelOutcome
  | earlyReturn
  | completed (failed : Nat)
  | interrupted
  deriving DecidableEq, Repr

/-- Observable result of one `download_channel` call: final progress state,
how control returned, and the ids for which fetch was invoked. -/
structure ChannelRun where
  progress : Progress
  outcome : ChannelOutcome
  fetched : List String
  deriving DecidableEq, Repr

/-- Embeds `StealthChannelDownloader.download_channel` (lines 450-588), in
source order: the `_check_time_restrictions` early return (only in paranoid
mode), the `_check_daily_limit` early return, the empty-video-list early
return, the `limit` and remaining-daily-quota truncations, the download
loop, and — only when the loop was not aborted by `KeyboardInterrupt` — the
append of the session summary record followed by `_save_progress`
(lines 579-586).  `timeOk` is the verdict of `_check_time_restrictions`;
the `channels` bookkeeping entry (lines 509-514) touches no field any claim
mentions and is not tracked. -/
def downloadChannel (mode : String) (timeOk : Bool) (dailyLimit : Nat)
    (limit : Option Nat) (p : Progress) (videos : List (String × IterEnv)) : ChannelRun :=
  if timeOk = false ∧ mode = "paranoid" then ⟨p, .earlyReturn, []⟩
  else if dailyLimit ≤ p.downloadsToday then ⟨p, .earlyReturn, []⟩
  else if videos.isEmpty then ⟨p, .earlyReturn, []⟩
  else
    let vids := applyDailyCap (dailyLimit - p.downloadsToday) (applyLimit limit videos)
    let out := channelLoop dailyLimit p 0 0 [] vids
    if out.interrupted then ⟨out.progress, .interrupted, out.fetched⟩
    else
      ⟨{ out.progress with
           sessions := out.progress.sessions ++ [⟨out.downloaded, out.failed⟩] },
        .completed out.failed, out.fetched⟩

/-- Embeds the exit-code logic of `main` (lines 678-684):
`sys.exit(0 if success else 1)` where `success` is `download_channel`'s
return value (`failed == 0` after the loop, `False` on every early return),
and `sys.exit(130)` from the `KeyboardInterrupt` handler. -/
def mainExitCode (run : ChannelRun) : Nat :=
  match run.outcome with
  | .earlyReturn => 1
  | .completed failed => if failed = 0 then 0 else 1
  | .interrupted => 130

/-- The persisted progress state of `yt_channel_advanced.py`
(`.channel_progress_advanced.json`): `downloaded_videos` key set,
`failed_videos`, and `sessions`. -/
structure AdvProgress where
  downloadedVideos : List String
  failedVideos : List (String × FailInfo)
  sessions : List SessionRec
  deriving DecidableEq, Repr

/-- `failed_videos[video_id]['attempts']` with default `0`, for the
advanced downloader. -/
def advAttempts (p : AdvProgress) (vid : String) : Nat :=
  ((lookupFail p.failedVideos vid).map FailInfo.attempts).getD 0

/-- Embeds `AdvancedChannelDownloader._record_failure` (lines 311-329): the
record is created with `attempts = 0` if absent, then `attempts += 1`, an
error entry is appended (untracked here), and `permanent_failure` is
overwritten with the `permanent` argument (default `False` at most call
sites).  Net effect: `⟨old attempts + 1, permanent⟩`. -/
def recordFailure (p : AdvProgress) (vid : String) (permanent : Bool) : AdvProgress :=
  { p with failedVideos :=
      updateFail p.failedVideos vid ⟨advAttempts p vid + 1, permanent⟩ }

/-- Outcome of one quality attempt inside
`AdvancedChannelDownloader._download_video_with_fallback`, as the source
classifies the raised exception: success; a `DownloadError` whose message
contains `video unavailable` or `private video`; a `DownloadError` whose
message contains `sign in`; or any other `DownloadError` / unexpected
exception (the source records nothing for those inside the loop and simply
proceeds to the next quality option). -/
inductive QOutcome
  | success
  | unavailableErr
  | signInErr
  | otherErr
  deriving DecidableEq, Repr

/-- Embeds the `for attempt, quality in enumerate(quality_options)` loop of
`_download_video_with_fallback` (lines 219-309), one list element per
quality option: on success the id joins `downloaded_videos` and any
`failed_videos` record is deleted (lines 274-277); an unavailable / private
error records a permanent failure and returns; a sign-in error records a
(non-permanent) failure and continues with the next quality; any other
error continues without recording.  Falling off the end of the loop records
`"All quality options failed"` as one more failure. -/
def fallbackAttempts (p : AdvProgress) (vid : String) : List QOutcome → AdvProgress × Bool
  | [] => (recordFailure p vid false, false)
  | .success :: _ =>
      let p2 := { p with downloadedVideos := p.downloadedVideos ++ [vid] }
      let p3 := if (lookupFail p2.failedVideos vid).isSome then
                  { p2 with failedVideos := eraseFail p2.failedVideos vid }
                else p2
      (p3, true)
  | .unavailableErr :: _ => (recordFailure p vid true, false)
  | .signInErr :: rest => fallbackAttempts (recordFailure p vid false) vid rest
  | .otherErr :: rest => fallbackAttempts p vid rest

/-- Embeds `AdvancedChannelDownloader._download_video_with_fallback`
(lines 197-309): skip (returning `True`, no fetch) when already downloaded;
skip (returning `False`, no fetch) when the recorded attempts have reached
`max_retries`; otherwise run the quality-fallback loop.  The result is the
updated state, the boolean return value, and whether any fetch was
invoked.  `outcomes` has one entry per quality option actually tried
(`quality_options` after duplicate removal, at most 4 entries). -/
def downloadVideoWithFallback (maxRetries : Nat) (p : AdvProgress) (vid : String)
    (outcomes : List QOutcome) : AdvProgress × Bool × Bool :=
  if vid ∈ p.downloadedVideos then (p, true, false)
  else if maxRetries ≤ advAttempts p vid then (p, false, false)
  else
    let r := fallbackAttempts p vid outcomes
    (r.1, r.2, true)

/-- Python's `round` modelled as round-half-up on rationals (the half-to-
even tie rule of CPython is irrelevant to every property stated here). -/
def pyRound (x : ℚ) : ℤ := ⌊x + 1 / 2⌋

/-- Embeds `StealthChannelDownloader._human_like_delay` (lines 187-217).
`baseDraw` stands for `random.uniform(base_min, base_max)`, `varianceDraw`
for `random.uniform(1 - variance, 1 + variance)`, `coffeeBreak` for the
`random.random() < 0.1` test and `breakDraw` for `random.uniform(900,
1800)`.  Steps, in source order: multiply the base draw by the variance
factor; multiply by `1.5` if `downloads_today > 5`, `elif` by `2.0` if
`downloads_today > 10` (the `elif` makes the second branch unreachable);
add the break; round to the nearest 10 s below 300 s and to the nearest
60 s otherwise; finally `return max(base_min, delay)`. -/
def humanLikeDelay (minWait baseDraw varianceDraw : ℚ) (downloadsToday : Nat)
    (coffeeBreak : Bool) (breakDraw : ℚ) : ℚ :=
  let delay := baseDraw * varianceDraw
  let delay := if 5 < downloadsToday then delay * 1.5
               else if 10 < downloadsToday then delay * 2 else delay
  let delay := if coffeeBreak then delay + breakDraw else delay
  let delay := if delay < 300 then (pyRound (delay / 10) : ℚ) * 10
               else (pyRound (delay / 60) : ℚ) * 60
  max minWait delay

/-- Embeds `AdvancedChannelDownloader._adaptive_delay` (lines 117-135).
`baseDraw` stands for `random.uniform(self.min_delay, self.max_delay)`,
`jitterDraw` for `random.uniform(-5, 5)` and `breakDraw` for
`random.uniform(120, 300)`.  Steps, in source order: multiply by `1.5` if
`downloads_in_session > 10`, `elif` by `2` if `downloads_in_session > 20`
(the `elif` makes the second branch unreachable); add the batch break when
`downloads_in_session > 0 and downloads_in_session % batch_size == 0`;
finally `return max(self.min_delay, base_delay + jitter)`. -/
def adaptiveDelay (minDelay baseDraw jitterDraw breakDraw : ℚ)
    (downloadsInSession batchSize : Nat) : ℚ :=
  let d := if 10 < downloadsInSession then baseDraw * 1.5
           else if 20 < downloadsInSession then baseDraw * 2 else baseDraw
  let d := if 0 < downloadsInSession ∧ downloadsInSession % batchSize = 0
           then d + breakDraw else d
  max minDelay (d + jitterDraw)

/-- One entry of `info['entries']` as `_get_video_list` consumes it: the
id, and the upload timestamp when the entry carries one (`'timestamp' in
entry`).  A `none` element of the entry list stands for an entry that is
falsy or lacks an `'id'` key (both are skipped by the source). -/
structure RawEntry where
  id : String
  timestamp : Option Int
  deriving DecidableEq, Repr

/-- Embeds the entry-filtering loop of
`StealthChannelDownloader._get_video_list` (lines 275-307): skip falsy /
id-less entries; skip ids that are empty, start with `UC`, or are not 11
characters long; when a days filter is active and the entry has a
timestamp, skip uploads older than the cutoff. -/
def filterVideos (cutoff : Option Int) : List (Option RawEntry) → List RawEntry
  | [] => []
  | none :: rest => filterVideos cutoff rest
  | some e :: rest =>
      if e.id.data.isEmpty || charsStart "UC".data e.id.data || !(e.id.length == 11) then
        filterVideos cutoff rest
      else
        match cutoff, e.timestamp with
        | some c, some ts =>
            if ts < c then filterVideos cutoff rest else e :: filterVideos cutoff rest
        | _, _ => e :: filterVideos cutoff rest

/-- Embeds the tail of `_get_video_list` (lines 315-320): after filtering,
`random.shuffle(videos)` is applied exactly when `self.stealth_mode in
['high', 'paranoid']`.  The shuffle's randomness is injected as the
`shuffle` function argument. -/
def getVideoList (mode : String) (shuffle : List RawEntry → List RawEntry)
    (cutoff : Option Int) (entries : List (Option RawEntry)) : List RawEntry :=
  let videos := filterVideos cutoff entries
  if mode = "high" ∨ mode = "paranoid" then shuffle videos else videos

theorem downloadSingleVideo_sessions (p : Progress) (vid : String) (o : FetchOutcome) :
    (downloadSingleVideo p vid o).progress.sessions = p.sessions := by
  unfold downloadSingleVideo
  split
  · rfl
  · split
    · rfl
    · cases o <;> rfl

theorem downloadSingleVideo_downloaded_mono (p : Progress) (vid : String) (o : FetchOutcome)
    (w : String) (h : w ∈ p.downloadedVideos) :
    w ∈ (downloadSingleVideo p vid o).progress.downloadedVideos := by
  unfold downloadSingleVideo
  split
  · exact h
  · split
    · exact h
    · cases o
      · exact List.mem_append_left _ h
      · exact h

theorem downloadSingleVideo_of_downloaded (p : Progress) (vid : String) (o : FetchOutcome)
    (h : vid ∈ p.downloadedVideos) :
    downloadSingleVideo p vid o = ⟨p, true, false⟩ := by
  unfold downloadSingleVideo
  rw [if_pos h]

theorem downloadSingleVideo_of_maxed (p : Progress) (vid : String) (o : FetchOutcome)
    (h : 3 ≤ stealthAttempts p vid) :
    (downloadSingleVideo p vid o).progress = p ∧
      (downloadSingleVideo p vid o).fetchInvoked = false := by
  unfold downloadSingleVideo
  split
  · exact ⟨rfl, rfl⟩
  · simp [h]

theorem stealthAttempts_step_le (p : Progress) (vid : String) (o : FetchOutcome) (w : String) :
    stealthAttempts (downloadSingleVideo p vid o).progress w ≤ stealthAttempts p w + 1 := by
  unfold downloadSingleVideo
  split
  · exact Nat.le_succ _
  · split
    · exact Nat.le_succ _
    · cases o with
      | success => exact Nat.le_succ _
      | failure msg =>
          by_cases hw : w = vid
          · subst hw
            simp [stealthAttempts, lookupFail_updateFail_self]
          · simp only [stealthAttempts]
            rw [lookupFail_updateFail_ne _ _ _ _ hw]
            exact Nat.le_succ _

theorem stealthAttempts_step_bound (p : Progress) (vid : String) (o : FetchOutcome) (w : String)
    (h : stealthAttempts p w ≤ 3) :
    stealthAttempts (downloadSingleVideo p vid o).progress w ≤ 3 := by
  unfold downloadSingleVideo
  split
  · exact h
  · rename_i hmax
    split
    · exact h
    · rename_i hlt
      cases o with
      | success => exact h
      | failure msg =>
          by_cases hw : w = vid
          · subst hw
            simp only [stealthAttempts] at hlt ⊢
            simp [lookupFail_updateFail_self]
            omega
          · simp only [stealthAttempts]
            rw [lookupFail_updateFail_ne _ _ _ _ hw]
            exact h

theorem channelLoop_sessions (dailyLimit : Nat) (l : List (String × IterEnv)) :
    ∀ p downloaded failed acc,
      (channelLoop dailyLimit p downloaded failed acc l).progress.sessions = p.sessions := by
  induction l with
  | nil => intro p d f acc; rfl
  | cons hd tl ih =>
      intro p d f acc
      obtain ⟨vid, env⟩ := hd
      simp only [channelLoop]
      split
      · rfl
      · split
        · rfl
        · split
          · exact downloadSingleVideo_sessions p vid env.outcome
          · split
            · exact downloadSingleVideo_sessions p vid env.outcome
            · rw [ih]
              exact downloadSingleVideo_sessions p vid env.outcome

theorem channelLoop_maxed (dailyLimit : Nat) (p : Progress) (d f : Nat)
    (acc : List String) (l : List (String × IterEnv)) (h : dailyLimit ≤ p.downloadsToday) :
    channelLoop dailyLimit p d f acc l = ⟨p, d, f, acc, false⟩ := by
  cases l with
  | nil => rfl
  | cons hd tl =>
      obtain ⟨vid, env⟩ := hd
      simp only [channelLoop]
      rw [if_pos h]

theorem channelLoop_fetched_length (dailyLimit : Nat) (l : List (String × IterEnv)) :
    ∀ p d f acc, (channelLoop dailyLimit p d f acc l).fetched.length ≤ acc.length + l.length := by
  induction l with
  | nil => intro p d f acc; simp [channelLoop]
  | cons hd tl ih =>
      intro p d f acc
      obtain ⟨vid, env⟩ := hd
      simp only [channelLoop, List.length_cons]
      split
      · simp
      · split
        · simp
        · have hacc : (if (downloadSingleVideo p vid env.outcome).fetchInvoked
              then acc ++ [vid] else acc).length ≤ acc.length + 1 := by
            split <;> simp
          have hgoal : (if (downloadSingleVideo p vid env.outcome).fetchInvoked
              then acc ++ [vid] else acc).length ≤ acc.length + (tl.length + 1) := by
            omega
          split
          · exact hgoal
          · split
            · exact hgoal
            · exact le_trans (ih _ _ _ _) (by omega)

theorem channelLoop_downloaded_not_fetched (dailyLimit : Nat) (l : List (String × IterEnv)) :
    ∀ p d f acc (vid : String), vid ∈ p.downloadedVideos → vid ∉ acc →
      vid ∉ (channelLoop dailyLimit p d f acc l).fetched := by
  induction l with
  | nil => intro p d f acc vid _ hacc; exact hacc
  | cons hd tl ih =>
      intro p d f acc vid hmem hacc
      obtain ⟨v, env⟩ := hd
      simp only [channelLoop]
      split
      · exact hacc
      · split
        · exact hacc
        · have hacc2 : vid ∉ (if (downloadSingleVideo p v env.outcome).fetchInvoked
              then acc ++ [v] else acc) := by
            by_cases hv : v = vid
            · subst hv
              rw [downloadSingleVideo_of_downloaded p v env.outcome hmem]
              simpa using hacc
            · split
              · intro hsub
                rcases List.mem_append.1 hsub with h1 | h1
                · exact hacc h1
                · exact hv (List.mem_singleton.1 h1).symm
              · exact hacc
          have hmem2 : vid ∈ (downloadSingleVideo p v env.outcome).progress.downloadedVideos :=
            downloadSingleVideo_downloaded_mono p v env.outcome vid hmem
          split
          · exact hacc2
          · split
            · exact hacc2
            · exact ih _ _ _ _ vid hmem2 hacc2

theorem channelLoop_attempts_bound (dailyLimit : Nat) (l : List (String × IterEnv)) :
    ∀ p d f acc, (∀ w, stealthAttempts p w ≤ 3) →
      ∀ w, stealthAttempts (channelLoop dailyLimit p d f acc l).progress w ≤ 3 := by
  induction l with
  | nil => intro p d f acc h w; exact h w
  | cons hd tl ih =>
      intro p d f acc h w
      obtain ⟨v, env⟩ := hd
      simp only [channelLoop]
      split
      · exact h w
      · split
        · exact h w
        · have h2 : ∀ w2, stealthAttempts (downloadSingleVideo p v env.outcome).progress w2 ≤ 3 :=
            fun w2 => stealthAttempts_step_bound p v env.outcome w2 (h w2)
          split
          · exact h2 w
          · split
            · exact h2 w
            · exact ih _ _ _ _ h2 w

/-- C6: for every draw of the injected random source the delay computed by
`_human_like_delay` — after rounding a sub-5-minute result to the nearest
10 seconds, a result of 5 minutes or more to the nearest 60 seconds, and
clamping from below via `max(base_min, delay)` — is at least `minWait`. -/
theorem c6_delay_ge_min_wait (minWait baseDraw varianceDraw : ℚ) (downloadsToday : Nat)
    (coffeeBreak : Bool) (breakDraw : ℚ) :
    minWait ≤ humanLikeDelay minWait baseDraw varianceDraw downloadsToday coffeeBreak breakDraw := by
  unfold humanLikeDelay
  exact le_max_left _ _

/-- C2 (code-bug evidence): for every session count greater than 20 (written
`k + 21`), `_adaptive_delay` multiplies the base draw by `1.5`, never by
`2`: the `elif downloads_in_session > 20` branch of the source is
unreachable because its condition implies the `> 10` condition tested
first.  The claim says the `2.0` multiplier applies to every count greater
than 20. -/
theorem c2_escalation_dead_branch (minDelay baseDraw jitterDraw breakDraw : ℚ)
    (k batchSize : Nat) :
    adaptiveDelay minDelay baseDraw jitterDraw breakDraw (k + 21) batchSize =
      max minDelay
        ((if 0 < k + 21 ∧ (k + 21) % batchSize = 0 then baseDraw * 1.5 + breakDraw
          else baseDraw * 1.5) + jitterDraw) := by
  simp only [adaptiveDelay, if_pos (show 10 < k + 21 by omega)]

/-- C10: the filtered video list is passed through the injected shuffle
exactly for stealth modes `high` and `paranoid` — so the processing order
is a permutation of the filtered catalog order — and is returned unchanged
(catalog order preserved) for modes `low` and `medium`. -/
theorem c10_shuffle_only_high_paranoid (shuffle : List RawEntry → List RawEntry)
    (cutoff : Option Int) (entries : List (Option RawEntry))
    (hp : ∀ l, (shuffle l).Perm l) :
    (getVideoList "high" shuffle cutoff entries).Perm (filterVideos cutoff entries) ∧
    (getVideoList "paranoid" shuffle cutoff entries).Perm (filterVideos cutoff entries) ∧
    getVideoList "low" shuffle cutoff entries = filterVideos cutoff entries ∧
    getVideoList "medium" shuffle cutoff entries = filterVideos cutoff entries := by
  refine ⟨?_, ?_, ?_, ?_⟩
  · simp only [getVideoList]
    rw [if_pos (Or.inl trivial)]
    exact hp _
  · simp only [getVideoList]
    rw [if_pos (Or.inr trivial)]
    exact hp _
  · simp only [getVideoList]
    rw [if_neg (by decide)]
  · simp only [getVideoList]
    rw [if_neg (by decide)]

/-- Witness for C10 at a concrete reversing shuffle and a two-entry
catalog. -/
theorem c10_witness :
    (getVideoList "high" List.reverse none
        [some ⟨"aaaaaaaaaaa", none⟩, some ⟨"bbbbbbbbbbb", none⟩]).Perm
      (filterVideos none [some ⟨"aaaaaaaaaaa", none⟩, some ⟨"bbbbbbbbbbb", none⟩]) ∧
    (getVideoList "paranoid" List.reverse none
        [some ⟨"aaaaaaaaaaa", none⟩, some ⟨"bbbbbbbbbbb", none⟩]).Perm
      (filterVideos none [some ⟨"aaaaaaaaaaa", none⟩, some ⟨"bbbbbbbbbbb", none⟩]) ∧
    getVideoList "low" List.reverse none
        [some ⟨"aaaaaaaaaaa", none⟩, some ⟨"bbbbbbbbbbb", none⟩] =
      filterVideos none [some ⟨"aaaaaaaaaaa", none⟩, some ⟨"bbbbbbbbbbb", none⟩] ∧
    getVideoList "medium" List.reverse none
        [some ⟨"aaaaaaaaaaa", none⟩, some ⟨"bbbbbbbbbbb", none⟩] =
      filterVideos none [some ⟨"aaaaaaaaaaa", none⟩, some ⟨"bbbbbbbbbbb", none⟩] :=
  c10_shuffle_only_high_paranoid List.reverse none
    [some ⟨"aaaaaaaaaaa", none⟩, some ⟨"bbbbbbbbbbb", none⟩]
    (fun l => List.reverse_perm l)

/-- C1 counterexample: from an empty store, a fetch failure classified
permanent ("Video unavailable") leaves the record at `attempts = 1` with
the permanent flag set — but a second run does not skip the item: the
eligibility check (which only compares `attempts` against 3) still lets it
through and fetch is invoked again. -/
theorem c1_counterexample :
    lookupFail ((downloadSingleVideo ⟨[], [], 0, []⟩ "a"
        (.failure "ERROR: Video unavailable")).progress).failedVideos "a" = some ⟨1, true⟩ ∧
    isEligible (downloadSingleVideo ⟨[], [], 0, []⟩ "a"
        (.failure "ERROR: Video unavailable")).progress "a" = true ∧
    (downloadSingleVideo (downloadSingleVideo ⟨[], [], 0, []⟩ "a"
        (.failure "ERROR: Video unavailable")).progress "a"
        (.failure "ERROR: Video unavailable")).fetchInvoked = true := by
  decide

/-- C1 (amended): a permanent failure on a fresh item is recorded with
`attempts = 1` and `permanent_failure = true`, but it does not
short-circuit the retry budget: a subsequent run invokes fetch for the item
again (the skip check compares `attempts` with 3 and ignores the permanent
flag; the flag only suppresses the extra post-failure delay). -/
theorem c1_permanent_not_short_circuited (p : Progress) (vid msg : String) (o : FetchOutcome)
    (hdl : vid ∉ p.downloadedVideos) (hnone : lookupFail p.failedVideos vid = none)
    (hperm : isPermanentError msg = true) :
    lookupFail ((downloadSingleVideo p vid (.failure msg)).progress).failedVideos vid =
      some ⟨1, true⟩ ∧
    (downloadSingleVideo (downloadSingleVideo p vid (.failure msg)).progress vid o).fetchInvoked
      = true := by
  have hatt : stealthAttempts p vid = 0 := by simp [stealthAttempts, hnone]
  have h1 : downloadSingleVideo p vid (.failure msg) =
      ⟨{ p with failedVideos := updateFail p.failedVideos vid ⟨1, true⟩ }, false, true⟩ := by
    unfold downloadSingleVideo
    rw [if_neg hdl, if_neg (by omega)]
    simp [hatt, hperm]
  constructor
  · rw [h1]
    simp [lookupFail_updateFail_self]
  · rw [h1]
    unfold downloadSingleVideo
    rw [if_neg hdl, if_neg (by simp [stealthAttempts, lookupFail_updateFail_self])]
    cases o <;> rfl

/-- Witness for C1 at a fresh item and the message "Video unavailable". -/
theorem c1_witness :
    lookupFail ((downloadSingleVideo ⟨[], [], 0, []⟩ "b"
        (.failure "Video unavailable")).progress).failedVideos "b" = some ⟨1, true⟩ ∧
    (downloadSingleVideo (downloadSingleVideo ⟨[], [], 0, []⟩ "b"
        (.failure "Video unavailable")).progress "b" .success).fetchInvoked = true :=
  c1_permanent_not_short_circuited ⟨[], [], 0, []⟩ "b" "Video unavailable" .success
    (by decide) (by decide) (by decide)

/-- C4 counterexample: for a record that is FailedPermanent with 2 attempts
the claimed characterization of the eligibility check ("true iff no record
exists, or the record is Pending/FailedTransient with attempts <
maxRetries") says ineligible, but the code's check returns true and fetch
is invoked. -/
theorem c4_counterexample :
    isEligible ⟨[], [("w", ⟨2, true⟩)], 0, []⟩ "w" = true ∧
    specIsEligible ⟨[], [("w", ⟨2, true⟩)], 0, []⟩ "w" = false ∧
    (downloadSingleVideo ⟨[], [("w", ⟨2, true⟩)], 0, []⟩ "w" .success).fetchInvoked = true := by
  decide

/-- C4 (amended): a Downloaded item is never fetched again — the
eligibility check returns false for it, `_download_single_video` returns
immediately without invoking fetch, and over a whole download loop a
Downloaded item's id never joins the fetched sequence (the code's check is
"not downloaded and attempts < 3"; it does not consult the permanent
flag). -/
theorem c4_downloaded_never_fetched (lim : Nat) (l : List (String × IterEnv)) (p : Progress)
    (d f : Nat) (acc : List String) (vid : String) (o : FetchOutcome)
    (hmem : vid ∈ p.downloadedVideos) (hacc : vid ∉ acc) :
    isEligible p vid = false ∧
    downloadSingleVideo p vid o = ⟨p, true, false⟩ ∧
    vid ∉ (channelLoop lim p d f acc l).fetched := by
  refine ⟨?_, downloadSingleVideo_of_downloaded p vid o hmem,
    channelLoop_downloaded_not_fetched lim l p d f acc vid hmem hacc⟩
  simp [isEligible, hmem]

/-- Witness for C4 at a store that already holds "v" and a one-item loop
over "v". -/
theorem c4_witness :
    isEligible ⟨["v"], [], 0, []⟩ "v" = false ∧
    downloadSingleVideo ⟨["v"], [], 0, []⟩ "v" .success = ⟨⟨["v"], [], 0, []⟩, true, false⟩ ∧
    "v" ∉ (channelLoop 5 ⟨["v"], [], 0, []⟩ 0 0 []
        [("v", ⟨false, .success, false⟩)]).fetched :=
  c4_downloaded_never_fetched 5 [("v", ⟨false, .success, false⟩)] ⟨["v"], [], 0, []⟩ 0 0 []
    "v" .success (by decide) (by decide)

theorem applyDailyCap_length (r : Nat) (vs : List (String × IterEnv)) :
    (applyDailyCap r vs).length ≤ r := by
  unfold applyDailyCap
  split
  · simp [List.length_take]
  · omega

/-- C5: once the daily counter has reached the daily limit no further fetch
is invoked — the per-iteration `_check_daily_limit` test stops the loop
immediately, leaving state, counters and the fetched sequence untouched —
and a whole `download_channel` run never invokes more fetches than the
remaining daily quota, because the video list is truncated to
`daily_limit - downloads_today` at session start. -/
theorem c5_daily_limit_blocks_fetch (lim : Nat) (p : Progress) (d f : Nat)
    (acc : List String) (l : List (String × IterEnv)) (mode : String) (timeOk : Bool)
    (limit : Option Nat) (q : Progress) (videos : List (String × IterEnv))
    (h : lim ≤ p.downloadsToday) :
    channelLoop lim p d f acc l = ⟨p, d, f, acc, false⟩ ∧
    (downloadChannel mode timeOk lim limit q videos).fetched.length ≤ lim - q.downloadsToday := by
  refine ⟨channelLoop_maxed lim p d f acc l h, ?_⟩
  have hcap := applyDailyCap_length (lim - q.downloadsToday) (applyLimit limit videos)
  have hlen := channelLoop_fetched_length lim
    (applyDailyCap (lim - q.downloadsToday) (applyLimit limit videos)) q 0 0 []
  simp only [List.length_nil, Nat.zero_add] at hlen
  simp only [downloadChannel]
  split
  · simp
  · split
    · simp
    · split
      · simp
      · split
        · exact le_trans hlen hcap
        · exact le_trans hlen hcap

/-- Witness for C5 at a store whose daily counter already equals the
limit. -/
theorem c5_witness :
    channelLoop 2 ⟨[], [], 2, []⟩ 0 0 [] [("v", ⟨false, .success, false⟩)] =
      ⟨⟨[], [], 2, []⟩, 0, 0, [], false⟩ ∧
    (downloadChannel "high" true 2 none ⟨[], [], 2, []⟩
        [("v", ⟨false, .success, false⟩)]).fetched.length ≤ 2 - 2 :=
  c5_daily_limit_blocks_fetch 2 ⟨[], [], 2, []⟩ 0 0 [] [("v", ⟨false, .success, false⟩)]
    "high" true none ⟨[], [], 2, []⟩ [("v", ⟨false, .success, false⟩)] (by decide)

/-- C7 counterexample: in the advanced downloader, a single processing of a
fresh sign-in-restricted item with the default three quality options
records four attempt increments (one per sign-in failure plus the final
"All quality options failed" record), so `attempts = 4` exceeds
`maxRetries = 3` after one processing. -/
theorem c7_counterexample :
    advAttempts (downloadVideoWithFallback 3 ⟨[], [], []⟩ "v"
        [.signInErr, .signInErr, .signInErr]).1 "v" = 4 ∧
    ¬ advAttempts (downloadVideoWithFallback 3 ⟨[], [], []⟩ "v"
        [.signInErr, .signInErr, .signInErr]).1 "v" ≤ 3 := by
  decide

/-- C7 (amended): in the stealth downloader the bound holds — one
processing of an item raises its `attempts` by at most one, an item whose
attempts have reached 3 is skipped before fetch with the state unchanged,
and a whole download loop preserves the invariant that every item's
attempts are at most 3.  (In the advanced downloader the bound fails; see
the counterexample.) -/
theorem c7_attempts_bound_stealth (p : Progress) (vid : String) (o : FetchOutcome)
    (lim : Nat) (l : List (String × IterEnv)) (d f : Nat) (acc : List String) :
    stealthAttempts (downloadSingleVideo p vid o).progress vid ≤ stealthAttempts p vid + 1 ∧
    (3 ≤ stealthAttempts p vid →
      (downloadSingleVideo p vid o).progress = p ∧
      (downloadSingleVideo p vid o).fetchInvoked = false) ∧
    ((∀ w, stealthAttempts p w ≤ 3) →
      ∀ w, stealthAttempts (channelLoop lim p d f acc l).progress w ≤ 3) :=
  ⟨stealthAttempts_step_le p vid o vid,
   fun h => downloadSingleVideo_of_maxed p vid o h,
   fun h => channelLoop_attempts_bound lim l p d f acc h⟩

/-- Witness for C7 at a store holding a record with exactly 3 attempts. -/
theorem c7_witness :
    stealthAttempts ((downloadSingleVideo ⟨[], [("v", ⟨3, false⟩)], 0, []⟩ "v"
        .success).progress) "v" ≤ stealthAttempts ⟨[], [("v", ⟨3, false⟩)], 0, []⟩ "v" + 1 ∧
    (downloadSingleVideo ⟨[], [("v", ⟨3, false⟩)], 0, []⟩ "v" .success).progress =
      ⟨[], [("v", ⟨3, false⟩)], 0, []⟩ ∧
    stealthAttempts (channelLoop 5 ⟨[], [("v", ⟨3, false⟩)], 0, []⟩ 0 0 []
        [("v", ⟨false, .success, false⟩)]).progress "v" ≤ 3 := by
  have hall : ∀ w, stealthAttempts ⟨[], [("v", ⟨3, false⟩)], 0, []⟩ w ≤ 3 := by
    intro w
    by_cases hw : ("v" : String) = w
    · simp [stealthAttempts, lookupFail, hw]
    · simp [stealthAttempts, lookupFail, hw]
  exact ⟨(c7_attempts_bound_stealth ⟨[], [("v", ⟨3, false⟩)], 0, []⟩ "v" .success 5
      [("v", ⟨false, .success, false⟩)] 0 0 []).1,
    ((c7_attempts_bound_stealth ⟨[], [("v", ⟨3, false⟩)], 0, []⟩ "v" .success 5
      [("v", ⟨false, .success, false⟩)] 0 0 []).2.1 (by decide)).1,
    ((c7_attempts_bound_stealth ⟨[], [("v", ⟨3, false⟩)], 0, []⟩ "v" .success 5
      [("v", ⟨false, .success, false⟩)] 0 0 []).2.2 hall) "v"⟩

/-- C8 counterexample: in the advanced downloader a FailedPermanent record
("v" with 1 attempt and the permanent flag) is still eligible, and when the
retried fetch succeeds the failure record is deleted from the store
(lines 274-277) and the item transitions to Downloaded — so records are
deleted, and FailedPermanent is not terminal. -/
theorem c8_counterexample :
    lookupFail (downloadVideoWithFallback 3 ⟨[], [("v", ⟨1, true⟩)], []⟩ "v"
        [.success]).1.failedVideos "v" = none ∧
    "v" ∈ (downloadVideoWithFallback 3 ⟨[], [("v", ⟨1, true⟩)], []⟩ "v"
        [.success]).1.downloadedVideos := by
  decide

/-- C8 (amended): a Downloaded item is terminal in both downloaders (its
processing returns immediately and changes nothing), and the stealth
downloader never deletes a failure record; but each new stealth failure
overwrites the whole record — in particular `permanent_failure` is reset to
the current classification — and the advanced downloader deletes the
failure record outright on a later success, so FailedPermanent is not a
terminal status. -/
theorem c8_record_lifecycle (p : Progress) (vid : String) (o : FetchOutcome)
    (mr : Nat) (q : AdvProgress) (vid2 : String) (outs : List QOutcome)
    (k msg : String) (fi : FailInfo) :
    (vid ∈ p.downloadedVideos → downloadSingleVideo p vid o = ⟨p, true, false⟩) ∧
    (vid2 ∈ q.downloadedVideos → downloadVideoWithFallback mr q vid2 outs = (q, true, false)) ∧
    ((lookupFail p.failedVideos k).isSome →
      (lookupFail (downloadSingleVideo p vid o).progress.failedVideos k).isSome) ∧
    (vid ∉ p.downloadedVideos → lookupFail p.failedVideos vid = some fi → fi.attempts < 3 →
      lookupFail (downloadSingleVideo p vid (.failure msg)).progress.failedVideos vid =
        some ⟨fi.attempts + 1, isPermanentError msg⟩) := by
  refine ⟨fun h => downloadSingleVideo_of_downloaded p vid o h, ?_, ?_, ?_⟩
  · intro h
    unfold downloadVideoWithFallback
    rw [if_pos h]
  · intro h
    unfold downloadSingleVideo
    split
    · exact h
    · split
      · exact h
      · cases o with
        | success => exact h
        | failure msg2 => exact lookupFail_updateFail_isSome _ _ _ _ h
  · intro hdl hlook hlt
    have hatt : stealthAttempts p vid = fi.attempts := by simp [stealthAttempts, hlook]
    unfold downloadSingleVideo
    rw [if_neg hdl, if_neg (by omega)]
    simp [lookupFail_updateFail_self, hatt]

/-- Witness for C8: the Downloaded-terminal conjunct at a store holding
"v", and the record-overwrite conjunct at a transient failure over an
existing one-attempt record. -/
theorem c8_witness :
    downloadSingleVideo ⟨["v"], [], 0, []⟩ "v" .success = ⟨⟨["v"], [], 0, []⟩, true, false⟩ ∧
    lookupFail (downloadSingleVideo ⟨[], [("k", ⟨1, false⟩)], 0, []⟩ "k"
        (.failure "timeout")).progress.failedVideos "k" =
      some ⟨2, isPermanentError "timeout"⟩ :=
  ⟨(c8_record_lifecycle ⟨["v"], [], 0, []⟩ "v" .success 3 ⟨[], [], []⟩ "v" [] "k" "m"
      ⟨0, false⟩).1 (by decide),
   (c8_record_lifecycle ⟨[], [("k", ⟨1, false⟩)], 0, []⟩ "k" .success 3 ⟨[], [], []⟩ "v" []
      "k" "timeout" ⟨1, false⟩).2.2.2 (by decide) (by decide) (by decide)⟩

/-- C9 counterexample: with an empty video list `download_channel` returns
`False` before processing anything, so the process exits with code 1 — not
0 as the claim states — and no session record is appended. -/
theorem c9_counterexample :
    mainExitCode (downloadChannel "high" true 10 none ⟨[], [], 0, []⟩ []) = 1 ∧
    mainExitCode (downloadChannel "high" true 10 none ⟨[], [], 0, []⟩ []) ≠ 0 ∧
    (downloadChannel "high" true 10 none ⟨[], [], 0, []⟩ []).progress.sessions = [] := by
  decide

/-- C9 (amended): an empty or unavailable item list makes `download_channel`
return `False` before the loop, and the process then exits with code 1;
exit code 0 occurs exactly when the run completed the loop with zero
failures (every early return — empty list, daily limit already reached,
paranoid-mode time restriction — also exits 1). -/
theorem c9_empty_list_exits_one (mode : String) (timeOk : Bool) (lim : Nat)
    (limit : Option Nat) (p : Progress) :
    (downloadChannel mode timeOk lim limit p []).outcome = ChannelOutcome.earlyReturn ∧
    mainExitCode (downloadChannel mode timeOk lim limit p []) = 1 ∧
    ∀ r : ChannelRun, mainExitCode r = 0 ↔ r.outcome = ChannelOutcome.completed 0 := by
  have hempty : (downloadChannel mode timeOk lim limit p []).outcome =
      ChannelOutcome.earlyReturn := by
    unfold downloadChannel
    split
    · rfl
    · split
      · rfl
      · rfl
  refine ⟨hempty, ?_, ?_⟩
  · unfold mainExitCode
    rw [hempty]
  · intro r
    obtain ⟨rp, ro, rf⟩ := r
    cases ro with
    | earlyReturn => simp [mainExitCode]
    | completed n => by_cases hn : n = 0 <;> simp [mainExitCode, hn]
    | interrupted => simp [mainExitCode]

/-- C3 counterexample: interrupting the session during the `Waiting` sleep
(after the first of two items) exits with code 130, but no Session record
is appended — the `KeyboardInterrupt` propagates past the session-append of
`download_channel` (lines 579-586), leaving the previously persisted
history (here one old record) unchanged. -/
theorem c3_counterexample :
    mainExitCode (downloadChannel "high" true 10 none ⟨[], [], 0, [⟨7, 7⟩]⟩
        [("a", ⟨false, .success, true⟩), ("b", ⟨false, .success, true⟩)]) = 130 ∧
    (downloadChannel "high" true 10 none ⟨[], [], 0, [⟨7, 7⟩]⟩
        [("a", ⟨false, .success, true⟩), ("b", ⟨false, .success, true⟩)]).progress.sessions =
      [⟨7, 7⟩] := by
  decide

/-- C3 (amended): when the loop ends in a non-interrupted terminal state
(list exhausted, stop file, or daily limit) `download_channel` appends
exactly one Session summary record to the persisted history; but an
operator interrupt observed during the `Waiting` sleep propagates out of
`download_channel`, the process exits with code 130 and the sessions
history is left exactly as it was. -/
theorem c3_session_appended_unless_interrupted (mode : String) (timeOk : Bool) (lim : Nat)
    (limit : Option Nat) (p : Progress) (videos : List (String × IterEnv)) :
    ((downloadChannel mode timeOk lim limit p videos).outcome = ChannelOutcome.interrupted →
      mainExitCode (downloadChannel mode timeOk lim limit p videos) = 130 ∧
      (downloadChannel mode timeOk lim limit p videos).progress.sessions = p.sessions) ∧
    (∀ fl, (downloadChannel mode timeOk lim limit p videos).outcome =
        ChannelOutcome.completed fl →
      (downloadChannel mode timeOk lim limit p videos).progress.sessions.length =
        p.sessions.length + 1) := by
  have hs := channelLoop_sessions lim
    (applyDailyCap (lim - p.downloadsToday) (applyLimit limit videos)) p 0 0 []
  simp only [downloadChannel]
  split
  · refine ⟨fun h => ?_, fun fl h => ?_⟩ <;> simp at h
  · split
    · refine ⟨fun h => ?_, fun fl h => ?_⟩ <;> simp at h
    · split
      · refine ⟨fun h => ?_, fun fl h => ?_⟩ <;> simp at h
      · split
        · refine ⟨fun h => ⟨rfl, hs⟩, fun fl h => ?_⟩
          simp at h
        · refine ⟨fun h => ?_, fun fl h => ?_⟩
          · simp at h
          · simp [hs]

/-- Witness for C3 at a two-item run interrupted during the first wait. -/
theorem c3_witness :
    mainExitCode (downloadChannel "high" true 10 none ⟨[], [], 0, []⟩
        [("a", ⟨false, .success, true⟩), ("b", ⟨false, .success, true⟩)]) = 130 ∧
    (downloadChannel "high" true 10 none ⟨[], [], 0, []⟩
        [("a", ⟨false, .success, true⟩), ("b", ⟨false, .success, true⟩)]).progress.sessions =
      (⟨[], [], 0, []⟩ : Progress).sessions :=
  (c3_session_appended_unless_interrupted "high" true 10 none ⟨[], [], 0, []⟩
    [("a", ⟨false, .success, true⟩), ("b", ⟨false, .success, true⟩)]).1 (by decide)
